import Mathlib

/-!
Shallow embedding of the Teaching Memory Subsystem of quest-agent-verse.

The subsystem has two parallel backends:
* `MemoryManager` (src/backend/src/memory/memory_manager.py) — a SQLite-table
  backend; its tables are modelled as Lean lists of row structures, the SQL
  statements as list operations, and `CURRENT_TIMESTAMP` / `datetime.now()`
  as an explicit `now : Nat` parameter (seconds).
* `AgnoMemoryManager` (src/backend/src/memory/agno_memory_manager.py) — a
  session-state backend; the per-client session-state dict is modelled as a
  structure `AgnoSessionState`.

Python `str` values that the code tokenizes are modelled as `List Char`
(`PyStr`), because the algorithms lower-case and whitespace-split them;
identifier-like strings (client ids, session ids, topics stored in rows) are
modelled as Lean `String`.  Python `float` scores are modelled as `ℚ`.
-/

/-- Python strings, as lists of characters (so that `lower`/`split` are
structurally recursive and computable). -/
abbrev PyStr := List Char

/-- Accumulator-based whitespace splitter: `pySplitAux s acc` scans `s`,
collecting the current (reversed) word in `acc`.  Mirrors the semantics of
Python `str.split()` with no argument: splits on runs of whitespace and never
produces empty tokens. -/
def pySplitAux : PyStr → PyStr → List PyStr
  | [], acc => if acc = [] then [] else [acc.reverse]
  | c :: cs, acc =>
    if c.isWhitespace then
      (if acc = [] then pySplitAux cs [] else acc.reverse :: pySplitAux cs [])
    else pySplitAux cs (c :: acc)

/-- Python `s.split()` (whitespace tokenization, no empty tokens). -/
def pySplit (s : PyStr) : List PyStr := pySplitAux s []

/-- Python `s.lower()`, restricted to the per-character (ASCII-adequate)
lowercasing `Char.toLower`; the repository's topics and the claims' examples
are ASCII, where this coincides with Python. -/
def pyLower (s : PyStr) : PyStr := s.map Char.toLower

namespace MemoryManager

/-- The set of words of `s.lower().split()`, as a finite set — Python's
`set(current_topic.lower().split())` in `calculate_topic_relevance`. -/
def wordSet (s : PyStr) : Finset PyStr := (pySplit (pyLower s)).toFinset

/-- MemoryManager.calculate_topic_relevance (memory_manager.py:402-441).
Empty `current_topic` or `user_message` (Python falsiness of `str`) returns
1.0; otherwise both strings are lower-cased and whitespace-tokenized into
sets; an empty topic-word set returns 1.0; otherwise the score is
`|topic_words ∩ message_words| / |topic_words|` floored at 0.1.  The
`except` branch of the source is unreachable for the pure operations
involved and is not modelled. -/
def calculate_topic_relevance (current_topic user_message : PyStr) : ℚ :=
  if current_topic = [] then 1
  else if user_message = [] then 1
  else
    let topic_words := wordSet current_topic
    let message_words := wordSet user_message
    if topic_words = ∅ then 1
    else max (1/10) (((topic_words ∩ message_words).card : ℚ) / (topic_words.card : ℚ))

/-- One row of the `teaching_records` table (memory_manager.py:97-109). -/
structure TeachingRecord where
  id : Nat
  client_id : String
  session_id : String
  topic : String
  interaction_type : String
  content : String
  response : String
  topic_relevance : ℚ
  created_at : Nat
deriving DecidableEq, Repr

/-- The `teaching_records` table: rows in insertion (rowid) order plus the
next AUTOINCREMENT id. -/
structure TeachDB where
  rows : List TeachingRecord
  nextId : Nat
deriving DecidableEq, Repr

/-- MemoryManager.record_teaching_interaction (memory_manager.py:332-345):
a pure `INSERT` of the supplied values; `created_at` defaults to the current
timestamp. -/
def record_teaching_interaction (db : TeachDB) (now : Nat)
    (client_id session_id topic interaction_type content response : String)
    (topic_relevance : ℚ) : TeachDB :=
  { rows := db.rows ++ [{ id := db.nextId, client_id := client_id, session_id := session_id,
                          topic := topic, interaction_type := interaction_type, content := content,
                          response := response, topic_relevance := topic_relevance, created_at := now }],
    nextId := db.nextId + 1 }

/-- The rows the deviation query aggregates over:
`WHERE client_id = ? AND session_id = ? AND created_at > datetime('now', '-10 minutes')`
(memory_manager.py:457-463).  `created_at > now - 600` is stated as
`now < created_at + 600` to avoid truncated `Nat` subtraction. -/
def deviationWindow (db : TeachDB) (now : Nat) (client_id session_id : String) :
    List TeachingRecord :=
  db.rows.filter (fun r =>
    r.client_id == client_id && r.session_id == session_id && decide (now < r.created_at + 600))

/-- MemoryManager.check_topic_deviation (memory_manager.py:443-471): the SQL
query computes `AVG(topic_relevance)` (NULL when no row is in the window) and
`COUNT(*)` over the 10-minute window; the Python code returns
`avg < threshold` when the average is non-NULL and the count is at least 3,
and `False` otherwise. -/
def check_topic_deviation (db : TeachDB) (now : Nat) (client_id session_id : String)
    (threshold : ℚ) : Bool :=
  let rows := deviationWindow db now client_id session_id
  let interaction_count := rows.length
  let avg_relevance? : Option ℚ :=
    if interaction_count = 0 then none
    else some (((rows.map (fun r => r.topic_relevance)).sum) / (interaction_count : ℚ))
  match avg_relevance? with
  | some avg_relevance =>
    if 3 ≤ interaction_count then decide (avg_relevance < threshold) else false
  | none => false

/-- The opaque `progress_data` dict passed to `update_learning_progress`:
the code only inspects `progress_data.get('comprehension_score', 0)`; the
rest of the payload is opaque and modelled as a string. -/
structure ProgressData where
  comprehension_score : Option ℚ
  rest : String
deriving DecidableEq, Repr

/-- Python `progress_data.get('comprehension_score', 0)`. -/
def ProgressData.score (pd : ProgressData) : ℚ := pd.comprehension_score.getD 0

/-- One row of the `learning_progress` table (memory_manager.py:81-94). -/
structure LearningProgressRow where
  id : Nat
  client_id : String
  course_id : Nat
  section_id : String
  progress_data : ProgressData
  comprehension_score : ℚ
  interaction_count : Nat
  last_activity : Nat
  created_at : Nat
deriving DecidableEq, Repr

/-- The `learning_progress` table with its AUTOINCREMENT counter. -/
structure ProgressDB where
  rows : List LearningProgressRow
  nextId : Nat
deriving DecidableEq, Repr

/-- The `WHERE client_id = ? AND course_id = ? AND section_id = ?` predicate
of the upsert's lookup (memory_manager.py:263-266). -/
def progressKeyMatch (client_id : String) (course_id : Nat) (section_id : String)
    (r : LearningProgressRow) : Bool :=
  r.client_id == client_id && r.course_id == course_id && r.section_id == section_id

/-- MemoryManager.update_learning_progress (memory_manager.py:258-297):
look up a row for the (client, course, section) key (`fetchone` — first
matching row in scan order); if present, `UPDATE` it (overwrite
`progress_data` and `comprehension_score`, increment `interaction_count`,
refresh `last_activity`; the `UPDATE ... WHERE id = ?` touches the rows with
that primary-key id); if absent, `INSERT` a fresh row with
`interaction_count = 1`.  No clamping is applied to the score. -/
def update_learning_progress (db : ProgressDB) (now : Nat) (client_id : String)
    (course_id : Nat) (section_id : String) (progress_data : ProgressData) : ProgressDB :=
  match db.rows.find? (progressKeyMatch client_id course_id section_id) with
  | some existing =>
    { db with rows := db.rows.map (fun r =>
        if r.id = existing.id then
          { r with progress_data := progress_data,
                   comprehension_score := progress_data.score,
                   interaction_count := r.interaction_count + 1,
                   last_activity := now }
        else r) }
  | none =>
    { rows := db.rows ++ [{ id := db.nextId, client_id := client_id, course_id := course_id,
                            section_id := section_id, progress_data := progress_data,
                            comprehension_score := progress_data.score,
                            interaction_count := 1, last_activity := now, created_at := now }],
      nextId := db.nextId + 1 }

/-- The record returned by MemoryManager.get_memory_summary
(memory_manager.py:474-504). -/
structure MemorySummary where
  course_count : Nat
  section_count : Nat
  average_score : ℚ
  total_interactions : Nat
  recent_topics : List String
deriving DecidableEq, Repr

/-- Stable descending sort by `created_at` over teaching records, used to
model `ORDER BY created_at DESC` result order for the summary's
recent-topics query (insertion sort; stable, so ties keep rowid order). -/
def insertByCreatedDesc (x : TeachingRecord) : List TeachingRecord → List TeachingRecord
  | [] => [x]
  | y :: ys => if y.created_at < x.created_at then x :: y :: ys else y :: insertByCreatedDesc x ys

/-- MemoryManager.get_memory_summary (memory_manager.py:474-504).  The stats
query computes `COUNT(DISTINCT course_id)`, `COUNT(DISTINCT section_id)`,
`AVG(comprehension_score)` and `SUM(interaction_count)` over the client's
progress rows (each `NULL`/`None` coalesced to 0 by `stats[i] or 0`); the
second query collects the distinct topics of the client's teaching records,
most recent first, limited to 5. -/
def get_memory_summary (db : ProgressDB) (tdb : TeachDB) (client_id : String) : MemorySummary :=
  let prows := db.rows.filter (fun r => r.client_id == client_id)
  let course_count := ((prows.map (fun r => r.course_id)).dedup).length
  let section_count := ((prows.map (fun r => r.section_id)).dedup).length
  let avg_score : ℚ :=
    if prows.length = 0 then 0
    else ((prows.map (fun r => r.comprehension_score)).sum) / (prows.length : ℚ)
  let total_interactions := (prows.map (fun r => r.interaction_count)).sum
  let trows := (tdb.rows.filter (fun r => r.client_id == client_id)).foldl
    (fun acc x => insertByCreatedDesc x acc) []
  let recent_topics := ((trows.map (fun r => r.topic)).dedup).take 5
  { course_count := course_count, section_count := section_count, average_score := avg_score,
    total_interactions := total_interactions, recent_topics := recent_topics }

/-- One row of the `section_contents` table (memory_manager.py:67-78);
`content` is an opaque JSON payload modelled as a string. -/
structure SectionRow where
  id : Nat
  course_id : Nat
  section_id : String
  title : String
  content : String
  created_at : Nat
deriving DecidableEq, Repr

/-- The rows matching `WHERE section_id = ?` (memory_manager.py:214-217). -/
def sectionMatches (rows : List SectionRow) (section_id : String) : List SectionRow :=
  rows.filter (fun r => r.section_id == section_id)

/-- MemoryManager.get_section_content (memory_manager.py:210-229) runs
`SELECT * FROM section_contents WHERE section_id = ? ORDER BY created_at DESC LIMIT 1`.
SQL does not specify which row is produced when several matching rows share
the maximal `created_at` (there is no secondary ORDER BY term), so the
embedding returns the list of admissible results: the matching rows whose
`created_at` is maximal.  The query's outcome is `some r` for some `r` in
this list, and `none` exactly when the list is empty. -/
def get_section_content_candidates (rows : List SectionRow) (section_id : String) :
    List SectionRow :=
  let ms := sectionMatches rows section_id
  ms.filter (fun r => ms.all (fun q => decide (q.created_at ≤ r.created_at)))

/-- The caller-supplied `outline_data` dict of `store_course_outline`
(memory_manager.py:131-157): the code reads four keys with `.get` defaults,
so each is modelled as optional; list-of-dict payloads (`sections`) are
opaque and modelled as lists of strings, preserved verbatim by the JSON
round trip. -/
structure OutlineData where
  course_title : Option String
  course_description : Option String
  learning_objectives : Option (List String)
  sections : Option (List String)
deriving DecidableEq, Repr

/-- One row of the `course_outlines` table (memory_manager.py:53-64);
`learning_objectives` and `sections` are stored as JSON and parsed back by
`get_course_outline`, which is the identity on these payloads. -/
structure OutlineRow where
  id : Nat
  topic : String
  title : String
  description : String
  learning_objectives : List String
  sections : List String
  created_at : Nat
deriving DecidableEq, Repr

/-- The `course_outlines` table with its AUTOINCREMENT counter. -/
structure OutlineDB where
  rows : List OutlineRow
  nextId : Nat
deriving DecidableEq, Repr

/-- MemoryManager.store_course_outline (memory_manager.py:131-157): inserts
a new row built from `topic` and the four `.get` fields of `outline_data`,
and returns `cursor.lastrowid` — the fresh id. -/
def store_course_outline (db : OutlineDB) (now : Nat) (topic : String)
    (outline_data : OutlineData) : OutlineDB × Nat :=
  let row : OutlineRow :=
    { id := db.nextId, topic := topic,
      title := outline_data.course_title.getD "",
      description := outline_data.course_description.getD "",
      learning_objectives := outline_data.learning_objectives.getD [],
      sections := outline_data.sections.getD [],
      created_at := now }
  ({ rows := db.rows ++ [row], nextId := db.nextId + 1 }, db.nextId)

/-- MemoryManager.get_course_outline (memory_manager.py:189-208):
`SELECT * FROM course_outlines WHERE id = ?`, `fetchone`; `None` on a miss. -/
def get_course_outline (db : OutlineDB) (course_id : Nat) : Option OutlineRow :=
  db.rows.find? (fun r => r.id == course_id)

/-- One row of the `topic_tracking` table (memory_manager.py:112-125).
`topic_duration` is written as `(now - start).total_seconds()`, hence `Int`
(0 by column default while the record is still open). -/
structure TopicRow where
  id : Nat
  client_id : String
  session_id : String
  current_topic : String
  topic_start_time : Nat
  topic_duration : Int
  deviation_count : Nat
  total_interactions : Nat
  created_at : Nat
  updated_at : Nat
deriving DecidableEq, Repr

/-- The `topic_tracking` table with its AUTOINCREMENT counter. -/
structure TopicDB where
  rows : List TopicRow
  nextId : Nat
deriving DecidableEq, Repr

/-- Fold step selecting a row with maximal `created_at`, keeping the later
scanned row on ties. -/
def pickLatest (acc : Option TopicRow) (r : TopicRow) : Option TopicRow :=
  match acc with
  | none => some r
  | some a => if a.created_at ≤ r.created_at then some r else some a

/-- The `SELECT id, topic_start_time ... WHERE client_id = ? AND session_id = ?
ORDER BY created_at DESC LIMIT 1` lookup of `update_topic_tracking`
(memory_manager.py:374-378).  As with any SQL ORDER BY, ties on `created_at`
leave the chosen row unspecified; the model resolves ties to the
latest-inserted row (the claims settled below do not depend on this
choice). -/
def lastTopicRecord (rows : List TopicRow) (client_id session_id : String) : Option TopicRow :=
  (rows.filter (fun r => r.client_id == client_id && r.session_id == session_id)).foldl
    pickLatest none

/-- MemoryManager.update_topic_tracking (memory_manager.py:369-400): if ANY
record exists for the (client, session) — the code never compares topics —
the most recent one gets `topic_duration = now - topic_start_time` (and a
refreshed `updated_at`); then a new record for `current_topic` is always
inserted, with `topic_start_time`/`created_at`/`updated_at` defaulting to
the current timestamp and `topic_duration = 0`. -/
def update_topic_tracking (db : TopicDB) (now : Nat) (client_id session_id current_topic : String) :
    TopicDB :=
  let rows :=
    match lastTopicRecord db.rows client_id session_id with
    | some last_record => db.rows.map (fun r =>
        if r.id = last_record.id then
          { r with topic_duration := (now : Int) - (last_record.topic_start_time : Int),
                   updated_at := now }
        else r)
    | none => db.rows
  { rows := rows ++ [{ id := db.nextId, client_id := client_id, session_id := session_id,
                       current_topic := current_topic, topic_start_time := now,
                       topic_duration := 0, deviation_count := 0, total_interactions := 0,
                       created_at := now, updated_at := now }],
    nextId := db.nextId + 1 }

end MemoryManager

namespace AgnoMemoryManager

/-- The set of words of `s.lower().split()` — the Agno variant's copy of the
same tokenization (agno_memory_manager.py:480-481). -/
def wordSet (s : PyStr) : Finset PyStr := (pySplit (pyLower s)).toFinset

/-- AgnoMemoryManager.calculate_topic_relevance
(agno_memory_manager.py:455-494); the body is textually identical to the
SQL backend's implementation. -/
def calculate_topic_relevance (current_topic user_message : PyStr) : ℚ :=
  if current_topic = [] then 1
  else if user_message = [] then 1
  else
    let topic_words := wordSet current_topic
    let message_words := wordSet user_message
    if topic_words = ∅ then 1
    else max (1/10) (((topic_words ∩ message_words).card : ℚ) / (topic_words.card : ℚ))

/-- One entry of `session_state["teaching_interactions"]`
(agno_memory_manager.py:362-370); `created_at` is an ISO timestamp whose
lexicographic order is chronological, modelled as `Nat`. -/
structure AgnoInteraction where
  session_id : String
  topic : String
  interaction_type : String
  content : String
  response : String
  topic_relevance : ℚ
  created_at : Nat
deriving DecidableEq, Repr

/-- Stable descending insertion by `created_at`: equal keys keep their
original relative order, exactly as Python's stable
`list.sort(key=..., reverse=True)`. -/
def insertInteractionDesc (x : AgnoInteraction) : List AgnoInteraction → List AgnoInteraction
  | [] => [x]
  | y :: ys => if y.created_at < x.created_at then x :: y :: ys else y :: insertInteractionDesc x ys

/-- Python's stable `interactions.sort(key=lambda x: x.get('created_at', ''), reverse=True)`
(agno_memory_manager.py:413). -/
def sortInteractionsDesc (l : List AgnoInteraction) : List AgnoInteraction :=
  l.foldl (fun acc x => insertInteractionDesc x acc) []

/-- One closed entry of `session_state["topic_history"]`
(agno_memory_manager.py:439-444). -/
structure AgnoTopicSegment where
  topic : String
  start_time : Nat
  duration : Int
  end_time : Nat
deriving DecidableEq, Repr

/-- One `session_state[f"progress_{course_id}_{section_id}"]` entry
(agno_memory_manager.py:290-299).  The dict key "progress_{course_id}_{section_id}"
determines and is determined by the (course_id, section_id) pair — the
decimal rendering of `course_id` contains no underscore — so the key is
modelled as that pair. -/
structure AgnoProgressEntry where
  course_id : Nat
  section_id : String
  comprehension_score : ℚ
  interaction_count : Nat
  last_activity : Nat
  created_at : Nat
deriving DecidableEq, Repr

/-- A client's agno session state (the dict stored per client): its
`progress_*` keys, its `teaching_interactions` list, and the topic-tracking
fields (`None`/absent keys modelled as `Option`). -/
structure AgnoSessionState where
  progress : List ((Nat × String) × AgnoProgressEntry)
  teaching_interactions : List AgnoInteraction
  current_topic : Option String
  topic_start_time : Option Nat
  session_id : Option String
  topic_history : List AgnoTopicSegment
deriving DecidableEq, Repr

/-- AgnoMemoryManager.get_teaching_history (agno_memory_manager.py:400-417)
for one client's session state: filter by `session_id` when given, stable
sort most-recent-first, truncate to `limit`. -/
def get_teaching_history (st : AgnoSessionState) (session_id : Option String) (limit : Nat) :
    List AgnoInteraction :=
  let interactions := st.teaching_interactions
  let interactions :=
    match session_id with
    | some sid => interactions.filter (fun i => i.session_id == sid)
    | none => interactions
  (sortInteractionsDesc interactions).take limit

/-- AgnoMemoryManager.check_topic_deviation (agno_memory_manager.py:496-523):
take the most recent up to 5 interactions of the session; `False` when fewer
than 3; else compare the mean `topic_relevance` against the threshold. -/
def check_topic_deviation (st : AgnoSessionState) (session_id : String) (threshold : ℚ) : Bool :=
  let recent_interactions := get_teaching_history st (some session_id) 5
  if recent_interactions.length < 3 then false
  else
    decide ((((recent_interactions.map (fun i => i.topic_relevance)).sum) /
      (recent_interactions.length : ℚ)) < threshold)

/-- AgnoMemoryManager.update_topic_tracking (agno_memory_manager.py:420-453):
when a previous topic exists (a non-empty string — Python truthiness), is
different from the new topic, and a start time is recorded, append a closed
segment to `topic_history`; in every case set `current_topic`,
`topic_start_time := now` and `session_id`. -/
def update_topic_tracking (st : AgnoSessionState) (now : Nat) (session_id current_topic : String) :
    AgnoSessionState :=
  let st' : AgnoSessionState :=
    match st.current_topic with
    | some previous_topic =>
      if previous_topic ≠ "" ∧ previous_topic ≠ current_topic then
        match st.topic_start_time with
        | some start_time =>
          { st with topic_history := st.topic_history ++
              [{ topic := previous_topic, start_time := start_time,
                 duration := (now : Int) - (start_time : Int), end_time := now }] }
        | none => st
      else st
    | none => st
  { st' with current_topic := some current_topic, topic_start_time := some now,
             session_id := some session_id }

/-- The summary record of AgnoMemoryManager.get_memory_summary
(agno_memory_manager.py:526-570). -/
structure AgnoSummary where
  course_count : Nat
  section_count : Nat
  average_score : ℚ
  total_interactions : Nat
  recent_topics : List String
deriving DecidableEq, Repr

/-- AgnoMemoryManager.get_memory_summary (agno_memory_manager.py:526-570):
the loop over the session state counts every `progress_*` key once into BOTH
`course_count` and `section_count`, sums `interaction_count`, and averages
only the strictly positive comprehension scores; `recent_topics` is
`list(set(...))` of the last 5 interactions' topics (Python set order is
unspecified; the model dedups preserving last occurrence). -/
def get_memory_summary (st : AgnoSessionState) : AgnoSummary :=
  let entries := st.progress.map (fun kv => kv.2)
  let course_count := entries.length
  let section_count := entries.length
  let total_interactions := (entries.map (fun e => e.interaction_count)).sum
  let positives := (entries.map (fun e => e.comprehension_score)).filter (fun s => decide (0 < s))
  let avg_score : ℚ := if positives.length = 0 then 0 else positives.sum / (positives.length : ℚ)
  let recent_topics :=
    (((st.teaching_interactions.drop (st.teaching_interactions.length - 5)).map
      (fun i => i.topic)).dedup)
  { course_count := course_count, section_count := section_count, average_score := avg_score,
    total_interactions := total_interactions, recent_topics := recent_topics }

end AgnoMemoryManager

namespace MemoryManager

/-- Evaluation of `calculate_topic_relevance` in the main branch (both
arguments non-empty, non-empty topic-word set). -/
theorem calculate_topic_relevance_main (t m : PyStr) (ht : t ≠ []) (hm : m ≠ [])
    (htw : wordSet t ≠ ∅) :
    calculate_topic_relevance t m
      = max (1/10) (((wordSet t ∩ wordSet m).card : ℚ) / ((wordSet t).card : ℚ)) := by
  unfold calculate_topic_relevance
  rw [if_neg ht, if_neg hm, if_neg htw]

/-- The relevance score always lies in [1/10, 1]. -/
theorem calculate_topic_relevance_bounds (t m : PyStr) :
    1/10 ≤ calculate_topic_relevance t m ∧ calculate_topic_relevance t m ≤ 1 := by
  by_cases ht : t = []
  · unfold calculate_topic_relevance
    rw [if_pos ht]
    norm_num
  by_cases hm : m = []
  · unfold calculate_topic_relevance
    rw [if_neg ht, if_pos hm]
    norm_num
  by_cases htw : wordSet t = ∅
  · unfold calculate_topic_relevance
    rw [if_neg ht, if_neg hm, if_pos htw]
    norm_num
  · rw [calculate_topic_relevance_main t m ht hm htw]
    constructor
    · exact le_max_left _ _
    · refine max_le (by norm_num) ?_
      have hcardpos : 0 < (wordSet t).card :=
        Finset.card_pos.mpr (Finset.nonempty_iff_ne_empty.mpr htw)
      refine div_le_one_of_le₀ ?_ (by positivity)
      exact_mod_cast Finset.card_le_card Finset.inter_subset_left

end MemoryManager

/-- C1: for every pair of Python strings, `calculate_topic_relevance` returns
a value in [0.1, 1.0]; it returns exactly 1.0 when either argument is empty
or when the topic's whitespace-token set is empty; when both arguments are
non-empty, the topic has tokens and the two lower-cased token sets are
disjoint it returns exactly 0.1; and it never returns 0. -/
theorem c1_calculate_topic_relevance_spec (current_topic user_message : PyStr) :
    (1/10 ≤ MemoryManager.calculate_topic_relevance current_topic user_message ∧
      MemoryManager.calculate_topic_relevance current_topic user_message ≤ 1) ∧
    (current_topic = [] →
      MemoryManager.calculate_topic_relevance current_topic user_message = 1) ∧
    (user_message = [] →
      MemoryManager.calculate_topic_relevance current_topic user_message = 1) ∧
    (MemoryManager.wordSet current_topic = ∅ →
      MemoryManager.calculate_topic_relevance current_topic user_message = 1) ∧
    (current_topic ≠ [] → user_message ≠ [] → MemoryManager.wordSet current_topic ≠ ∅ →
      MemoryManager.wordSet current_topic ∩ MemoryManager.wordSet user_message = ∅ →
      MemoryManager.calculate_topic_relevance current_topic user_message = 1/10) ∧
    MemoryManager.calculate_topic_relevance current_topic user_message ≠ 0 := by
  refine ⟨MemoryManager.calculate_topic_relevance_bounds _ _, ?_, ?_, ?_, ?_, ?_⟩
  · intro ht
    unfold MemoryManager.calculate_topic_relevance
    rw [if_pos ht]
  · intro hm
    by_cases ht : current_topic = []
    · unfold MemoryManager.calculate_topic_relevance
      rw [if_pos ht]
    · unfold MemoryManager.calculate_topic_relevance
      rw [if_neg ht, if_pos hm]
  · intro htw
    by_cases ht : current_topic = []
    · unfold MemoryManager.calculate_topic_relevance
      rw [if_pos ht]
    by_cases hm : user_message = []
    · unfold MemoryManager.calculate_topic_relevance
      rw [if_neg ht, if_pos hm]
    · unfold MemoryManager.calculate_topic_relevance
      rw [if_neg ht, if_neg hm, if_pos htw]
  · intro ht hm htw hdisj
    rw [MemoryManager.calculate_topic_relevance_main _ _ ht hm htw, hdisj]
    simp
  · intro h0
    have hb := (MemoryManager.calculate_topic_relevance_bounds current_topic user_message).1
    rw [h0] at hb
    norm_num at hb

/-- C1 witness: the claim's concrete example — topic "math addition" and
message "I love painting" share no lower-cased whitespace tokens, and the
relevance is exactly 0.1. -/
theorem c1_calculate_topic_relevance_spec_witness :
    MemoryManager.calculate_topic_relevance "math addition".toList "I love painting".toList
      = 1/10 := by
  have h := c1_calculate_topic_relevance_spec "math addition".toList "I love painting".toList
  exact h.2.2.2.2.1 (by decide) (by decide) (by decide) (by decide)

/-- C10: the SQL-table backend and the Agno backend compute topic relevance
by the same algorithm, so the score is independent of the selected backend. -/
theorem c10_relevance_backends_agree (current_topic user_message : PyStr) :
    MemoryManager.calculate_topic_relevance current_topic user_message
      = AgnoMemoryManager.calculate_topic_relevance current_topic user_message := rfl

namespace MemoryManager

/-- A `WHERE section_id = ?` filter over rows none of which match is empty. -/
theorem sectionMatches_eq_nil (rows : List SectionRow) (section_id : String)
    (h : ∀ r ∈ rows, r.section_id ≠ section_id) : sectionMatches rows section_id = [] := by
  unfold sectionMatches
  rw [List.filter_eq_nil_iff]
  intro x hx
  simpa using h x hx

/-- With no matching row, the `LIMIT 1` query has no admissible result. -/
theorem candidates_eq_nil (rows : List SectionRow) (section_id : String)
    (h : sectionMatches rows section_id = []) :
    get_section_content_candidates rows section_id = [] := by
  unfold get_section_content_candidates
  rw [h]
  rfl

end MemoryManager

/-- C9: a lookup miss is a plain absent result — `get_course_outline` on a
course id with no row returns `none`, and `get_section_content` on a section
id with no row has no admissible result (the query yields `None`); neither
lookup can fail any other way, being total functions of the table state. -/
theorem c9_lookup_miss_returns_none (db : MemoryManager.OutlineDB) (course_id : Nat)
    (rows : List MemoryManager.SectionRow) (section_id : String) :
    ((∀ r ∈ db.rows, r.id ≠ course_id) →
      MemoryManager.get_course_outline db course_id = none) ∧
    ((∀ r ∈ rows, r.section_id ≠ section_id) →
      MemoryManager.get_section_content_candidates rows section_id = []) := by
  constructor
  · intro h
    unfold MemoryManager.get_course_outline
    rw [List.find?_eq_none]
    intro x hx
    simpa using h x hx
  · intro h
    exact MemoryManager.candidates_eq_nil rows section_id
      (MemoryManager.sectionMatches_eq_nil rows section_id h)

/-- C9 witness: both misses at concrete empty tables. -/
theorem c9_lookup_miss_returns_none_witness :
    MemoryManager.get_course_outline ⟨[], 1⟩ 42 = none ∧
    MemoryManager.get_section_content_candidates [] "s9" = [] :=
  ⟨(c9_lookup_miss_returns_none ⟨[], 1⟩ 42 [] "s9").1 (by simp),
   (c9_lookup_miss_returns_none ⟨[], 1⟩ 42 [] "s9").2 (by simp)⟩

/-- C8: storing an outline and reading it back by the returned id reproduces
the outline's title, description, learning objectives and sections exactly
(for an `outline_data` dict that carries those four keys; absent keys are
stored as the `.get` defaults), provided the AUTOINCREMENT id is fresh, as
it is in every reachable table state. -/
theorem c8_store_get_outline_roundtrip (db : MemoryManager.OutlineDB) (now : Nat)
    (topic : String) (o : MemoryManager.OutlineData) (ttl descr : String)
    (objs secs : List String)
    (hfresh : ∀ r ∈ db.rows, r.id ≠ db.nextId)
    (h1 : o.course_title = some ttl) (h2 : o.course_description = some descr)
    (h3 : o.learning_objectives = some objs) (h4 : o.sections = some secs) :
    MemoryManager.get_course_outline (MemoryManager.store_course_outline db now topic o).1
        (MemoryManager.store_course_outline db now topic o).2
      = some { id := db.nextId, topic := topic, title := ttl, description := descr,
               learning_objectives := objs, sections := secs, created_at := now } := by
  unfold MemoryManager.store_course_outline MemoryManager.get_course_outline
  have hnone : db.rows.find? (fun r => r.id == db.nextId) = none :=
    List.find?_eq_none.mpr (fun x hx => by simpa using hfresh x hx)
  simp [List.find?_append, hnone, h1, h2, h3, h4]

/-- C8 witness: a concrete round trip through an empty table. -/
theorem c8_store_get_outline_roundtrip_witness :
    MemoryManager.get_course_outline
        (MemoryManager.store_course_outline ⟨[], 1⟩ 7 "math"
          ⟨some "T", some "D", some ["o"], some ["s"]⟩).1
        (MemoryManager.store_course_outline ⟨[], 1⟩ 7 "math"
          ⟨some "T", some "D", some ["o"], some ["s"]⟩).2
      = some { id := 1, topic := "math", title := "T", description := "D",
               learning_objectives := ["o"], sections := ["s"], created_at := 7 } :=
  c8_store_get_outline_roundtrip ⟨[], 1⟩ 7 "math" ⟨some "T", some "D", some ["o"], some ["s"]⟩
    "T" "D" ["o"] ["s"] (by simp) rfl rfl rfl rfl

namespace MemoryManager

/-- Every non-empty list of section rows has an element of maximal
`created_at`. -/
theorem exists_max_created (l : List SectionRow) (hne : l ≠ []) :
    ∃ r ∈ l, ∀ q ∈ l, q.created_at ≤ r.created_at := by
  induction l with
  | nil => exact absurd rfl hne
  | cons x xs ih =>
    by_cases hxs : xs = []
    · subst hxs
      refine ⟨x, List.mem_cons_self x [], ?_⟩
      intro q hq
      rcases List.mem_cons.mp hq with h | h
      · subst h; exact le_refl _
      · cases h
    · obtain ⟨r, hr, hmax⟩ := ih hxs
      by_cases hcmp : x.created_at ≤ r.created_at
      · refine ⟨r, List.mem_cons_of_mem _ hr, ?_⟩
        intro q hq
        rcases List.mem_cons.mp hq with h | h
        · subst h; exact hcmp
        · exact hmax q h
      · push_neg at hcmp
        refine ⟨x, List.mem_cons_self x xs, ?_⟩
        intro q hq
        rcases List.mem_cons.mp hq with h | h
        · subst h; exact le_refl _
        · exact le_trans (hmax q h) (le_of_lt hcmp)

/-- Membership in the candidate set unfolded: a matching row whose
`created_at` dominates every matching row. -/
theorem mem_candidates_iff (rows : List SectionRow) (section_id : String) (r : SectionRow) :
    r ∈ get_section_content_candidates rows section_id ↔
      (r ∈ sectionMatches rows section_id ∧
        ∀ q ∈ sectionMatches rows section_id, q.created_at ≤ r.created_at) := by
  unfold get_section_content_candidates
  rw [List.mem_filter]
  constructor
  · rintro ⟨h1, h2⟩
    refine ⟨h1, ?_⟩
    intro q hq
    have := (List.all_eq_true.mp h2) q hq
    exact of_decide_eq_true this
  · rintro ⟨h1, h2⟩
    refine ⟨h1, ?_⟩
    exact List.all_eq_true.mpr (fun q hq => decide_eq_true (h2 q hq))

/-- Membership in `sectionMatches` unfolded. -/
theorem mem_sectionMatches_iff (rows : List SectionRow) (section_id : String) (r : SectionRow) :
    r ∈ sectionMatches rows section_id ↔ (r ∈ rows ∧ r.section_id = section_id) := by
  unfold sectionMatches
  rw [List.mem_filter]
  simp

end MemoryManager

/-- C6 counterexample: for two stored rows with the same `section_id` and the
same `created_at` but ids 1 and 2, the row with id 1 is an admissible result
of the query `WHERE section_id = ? ORDER BY created_at DESC LIMIT 1` (which
has no secondary ORDER BY term), so the claim's tie-break "then by highest
id" is not guaranteed by the code. -/
theorem c6_get_section_content_counterexample :
    (⟨1, 1, "s", "t1", "c1", 5⟩ : MemoryManager.SectionRow)
        ∈ MemoryManager.get_section_content_candidates
            [⟨1, 1, "s", "t1", "c1", 5⟩, ⟨2, 1, "s", "t2", "c2", 5⟩] "s" ∧
    (⟨2, 1, "s", "t2", "c2", 5⟩ : MemoryManager.SectionRow)
        ∈ MemoryManager.get_section_content_candidates
            [⟨1, 1, "s", "t1", "c1", 5⟩, ⟨2, 1, "s", "t2", "c2", 5⟩] "s" ∧
    (⟨1, 1, "s", "t1", "c1", 5⟩ : MemoryManager.SectionRow).id ≠
      (⟨2, 1, "s", "t2", "c2", 5⟩ : MemoryManager.SectionRow).id := by
  refine ⟨by decide, by decide, by decide⟩

/-- C6 amended: `get_section_content(section_id)` returns a stored row for
that `section_id` whose `created_at` is maximal among the matching rows, and
a not-found result exactly when no row matches; when the matching rows'
`created_at` values are pairwise distinct the result is uniquely determined
(the most recently created row), but on `created_at` ties the query
specifies no id tie-break and the returned row is unspecified. -/
theorem c6_get_section_content_amended (rows : List MemoryManager.SectionRow)
    (section_id : String) :
    (MemoryManager.get_section_content_candidates rows section_id = [] ↔
      MemoryManager.sectionMatches rows section_id = []) ∧
    (∀ r ∈ MemoryManager.get_section_content_candidates rows section_id,
      r ∈ rows ∧ r.section_id = section_id ∧
        ∀ q ∈ rows, q.section_id = section_id → q.created_at ≤ r.created_at) ∧
    (List.Pairwise (fun a b => a.created_at ≠ b.created_at)
        (MemoryManager.sectionMatches rows section_id) →
      ∀ r ∈ MemoryManager.get_section_content_candidates rows section_id,
        ∀ q ∈ MemoryManager.get_section_content_candidates rows section_id, r = q) := by
  refine ⟨⟨?_, MemoryManager.candidates_eq_nil rows section_id⟩, ?_, ?_⟩
  · intro hcand
    by_contra hms
    obtain ⟨r, hr, hmax⟩ := MemoryManager.exists_max_created _ hms
    have : r ∈ MemoryManager.get_section_content_candidates rows section_id :=
      (MemoryManager.mem_candidates_iff rows section_id r).mpr ⟨hr, hmax⟩
    rw [hcand] at this
    cases this
  · intro r hr
    obtain ⟨hms, hmax⟩ := (MemoryManager.mem_candidates_iff rows section_id r).mp hr
    obtain ⟨hrows, hsid⟩ := (MemoryManager.mem_sectionMatches_iff rows section_id r).mp hms
    refine ⟨hrows, hsid, ?_⟩
    intro q hq hqsid
    exact hmax q ((MemoryManager.mem_sectionMatches_iff rows section_id q).mpr ⟨hq, hqsid⟩)
  · intro hpw r hr q hq
    obtain ⟨hrm, hrmax⟩ := (MemoryManager.mem_candidates_iff rows section_id r).mp hr
    obtain ⟨hqm, hqmax⟩ := (MemoryManager.mem_candidates_iff rows section_id q).mp hq
    by_contra hne
    have hsym : Symmetric (fun a b : MemoryManager.SectionRow => a.created_at ≠ b.created_at) :=
      fun _ _ h => Ne.symm h
    have hdiff := hpw.forall hsym hrm hqm hne
    exact hdiff (le_antisymm (hqmax r hrm) (hrmax q hqm))

/-- C6 amended witness: for a single stored row the query's result is that
row, which matches and has maximal `created_at`. -/
theorem c6_get_section_content_amended_witness :
    (⟨1, 1, "s", "t", "c", 5⟩ : MemoryManager.SectionRow) ∈
        [(⟨1, 1, "s", "t", "c", 5⟩ : MemoryManager.SectionRow)] ∧
    (⟨1, 1, "s", "t", "c", 5⟩ : MemoryManager.SectionRow).section_id = "s" ∧
    ∀ q ∈ [(⟨1, 1, "s", "t", "c", 5⟩ : MemoryManager.SectionRow)], q.section_id = "s" →
      q.created_at ≤ (⟨1, 1, "s", "t", "c", 5⟩ : MemoryManager.SectionRow).created_at :=
  (c6_get_section_content_amended [⟨1, 1, "s", "t", "c", 5⟩] "s").2.1
    ⟨1, 1, "s", "t", "c", 5⟩ (by decide)

/-- Deduplicated images cannot have more distinct elements than the list they
are mapped from. -/
theorem dedup_length_map_le {α β : Type} [DecidableEq α] [DecidableEq β]
    (l : List α) (f : α → β) : ((l.map f).dedup).length ≤ (l.dedup).length := by
  have h1 : (l.map f).toFinset.card = (l.map f).dedup.length := List.card_toFinset _
  have h2 : l.toFinset.card = l.dedup.length := List.card_toFinset _
  have h3 : (l.map f).toFinset = l.toFinset.image f := Multiset.toFinset_map f l
  calc ((l.map f).dedup).length = (l.toFinset.image f).card := by rw [← h1, h3]
    _ ≤ l.toFinset.card := Finset.card_image_le
    _ = l.dedup.length := h2

/-- C7 counterexample: a client with progress rows for the (course, section)
pairs (1, "a") and (1, "b") has 2 distinct pairs, but the SQL backend's
summary reports `course_count = 1` (it counts `COUNT(DISTINCT course_id)`,
not distinct pairs). -/
theorem c7_memory_summary_counterexample :
    (MemoryManager.get_memory_summary
        ⟨[⟨1, "u", 1, "a", ⟨none, ""⟩, 0, 1, 0, 0⟩,
          ⟨2, "u", 1, "b", ⟨none, ""⟩, 0, 1, 0, 0⟩], 3⟩ ⟨[], 1⟩ "u").course_count = 1 ∧
    ((([⟨1, "u", 1, "a", ⟨none, ""⟩, 0, 1, 0, 0⟩,
        ⟨2, "u", 1, "b", ⟨none, ""⟩, 0, 1, 0, 0⟩] :
          List MemoryManager.LearningProgressRow).filter
        (fun r => r.client_id == "u")).map
          (fun r => (r.course_id, r.section_id))).dedup.length = 2 :=
  ⟨by decide, by decide⟩

/-- C7 amended: in the SQL backend, `course_count` is the number of distinct
`course_id` values and `section_count` the number of distinct `section_id`
values among the client's progress rows (each is at most — and in general
not equal to — the number of distinct (course_id, section_id) pairs); in the
Agno backend both counts equal the number of `progress_*` entries, i.e. the
number of distinct (course, section) keys, since dict keys are unique. -/
theorem c7_memory_summary_amended (db : MemoryManager.ProgressDB)
    (tdb : MemoryManager.TeachDB) (client_id : String)
    (st : AgnoMemoryManager.AgnoSessionState) :
    ((MemoryManager.get_memory_summary db tdb client_id).course_count
        = (((db.rows.filter (fun r => r.client_id == client_id)).map
            (fun r => r.course_id)).dedup).length) ∧
    ((MemoryManager.get_memory_summary db tdb client_id).section_count
        = (((db.rows.filter (fun r => r.client_id == client_id)).map
            (fun r => r.section_id)).dedup).length) ∧
    ((MemoryManager.get_memory_summary db tdb client_id).course_count
        ≤ (((db.rows.filter (fun r => r.client_id == client_id)).map
            (fun r => (r.course_id, r.section_id))).dedup).length) ∧
    ((MemoryManager.get_memory_summary db tdb client_id).section_count
        ≤ (((db.rows.filter (fun r => r.client_id == client_id)).map
            (fun r => (r.course_id, r.section_id))).dedup).length) ∧
    (List.Nodup (st.progress.map (fun kv => kv.1)) →
      (AgnoMemoryManager.get_memory_summary st).course_count
          = ((st.progress.map (fun kv => kv.1)).dedup).length ∧
      (AgnoMemoryManager.get_memory_summary st).section_count
          = ((st.progress.map (fun kv => kv.1)).dedup).length) := by
  refine ⟨rfl, rfl, ?_, ?_, ?_⟩
  · have hmm : (db.rows.filter (fun r => r.client_id == client_id)).map
        (fun r => r.course_id)
        = ((db.rows.filter (fun r => r.client_id == client_id)).map
            (fun r => (r.course_id, r.section_id))).map Prod.fst := by
      rw [List.map_map]
      rfl
    show (((db.rows.filter (fun r => r.client_id == client_id)).map
        (fun r => r.course_id)).dedup).length ≤ _
    rw [hmm]
    exact dedup_length_map_le _ Prod.fst
  · have hmm : (db.rows.filter (fun r => r.client_id == client_id)).map
        (fun r => r.section_id)
        = ((db.rows.filter (fun r => r.client_id == client_id)).map
            (fun r => (r.course_id, r.section_id))).map Prod.snd := by
      rw [List.map_map]
      rfl
    show (((db.rows.filter (fun r => r.client_id == client_id)).map
        (fun r => r.section_id)).dedup).length ≤ _
    rw [hmm]
    exact dedup_length_map_le _ Prod.snd
  · intro hnod
    have hk : (st.progress.map (fun kv => kv.1)).dedup = st.progress.map (fun kv => kv.1) :=
      List.dedup_eq_self.mpr hnod
    have hcc : (AgnoMemoryManager.get_memory_summary st).course_count
        = st.progress.length := by
      simp [AgnoMemoryManager.get_memory_summary]
    have hsc : (AgnoMemoryManager.get_memory_summary st).section_count
        = st.progress.length := by
      simp [AgnoMemoryManager.get_memory_summary]
    rw [hcc, hsc, hk, List.length_map]
    exact ⟨rfl, rfl⟩

/-- C7 amended witness: a concrete Agno session state with one progress
entry, whose keys are trivially duplicate-free. -/
theorem c7_memory_summary_amended_witness :
    (AgnoMemoryManager.get_memory_summary
        ⟨[((1, "a"), ⟨1, "a", 0, 1, 0, 0⟩)], [], none, none, none, []⟩).course_count
      = ((([((1, "a"), (⟨1, "a", 0, 1, 0, 0⟩ : AgnoMemoryManager.AgnoProgressEntry))] :
          List ((Nat × String) × AgnoMemoryManager.AgnoProgressEntry)).map
            (fun kv => kv.1)).dedup).length ∧
    (AgnoMemoryManager.get_memory_summary
        ⟨[((1, "a"), ⟨1, "a", 0, 1, 0, 0⟩)], [], none, none, none, []⟩).section_count
      = ((([((1, "a"), (⟨1, "a", 0, 1, 0, 0⟩ : AgnoMemoryManager.AgnoProgressEntry))] :
          List ((Nat × String) × AgnoMemoryManager.AgnoProgressEntry)).map
            (fun kv => kv.1)).dedup).length :=
  (c7_memory_summary_amended ⟨[], 1⟩ ⟨[], 1⟩ "u"
    ⟨[((1, "a"), ⟨1, "a", 0, 1, 0, 0⟩)], [], none, none, none, []⟩).2.2.2.2 (by decide)

namespace MemoryManager

/-- Every row after an upsert either carries the caller's score verbatim or
was already stored: the operation applies no transformation (in particular
no clamping) to any score. -/
theorem update_rows_passthrough (db : ProgressDB) (now : Nat) (client_id : String)
    (course_id : Nat) (section_id : String) (pd : ProgressData) (r : LearningProgressRow)
    (hr : r ∈ (update_learning_progress db now client_id course_id section_id pd).rows) :
    r.comprehension_score = pd.score ∨ r ∈ db.rows := by
  cases hfind : db.rows.find? (progressKeyMatch client_id course_id section_id) with
  | some ex =>
    simp only [update_learning_progress, hfind] at hr
    obtain ⟨a, ha, hfa⟩ := List.mem_map.mp hr
    by_cases hid : a.id = ex.id
    · left
      rw [← hfa]
      simp [hid]
    · right
      rw [← hfa]
      simp [hid]
      exact ha
  | none =>
    simp only [update_learning_progress, hfind] at hr
    rcases List.mem_append.mp hr with h | h
    · right; exact h
    · left
      rw [List.mem_singleton.mp h]

/-- Every row after a teaching-interaction insert either was already stored
or carries the caller's relevance verbatim. -/
theorem record_rows_passthrough (db : TeachDB) (now : Nat)
    (client_id session_id topic interaction_type content response : String)
    (topic_relevance : ℚ) (r : TeachingRecord)
    (hr : r ∈ (record_teaching_interaction db now client_id session_id topic interaction_type
        content response topic_relevance).rows) :
    r ∈ db.rows ∨ r.topic_relevance = topic_relevance := by
  simp only [record_teaching_interaction] at hr
  rcases List.mem_append.mp hr with h | h
  · left; exact h
  · right
    rw [List.mem_singleton.mp h]

end MemoryManager

/-- C4 counterexample: with an out-of-range caller value, the stored
`comprehension_score` is 5 (outside [0,1]) and the stored `topic_relevance`
is -2 (outside [0,1]): neither operation clamps. -/
theorem c4_clamping_counterexample :
    ((MemoryManager.update_learning_progress ⟨[], 1⟩ 0 "u" 1 "s" ⟨some 5, ""⟩).rows.map
        (fun r => r.comprehension_score)) = [5] ∧
    ¬ ((5 : ℚ) ≤ 1) ∧
    ((MemoryManager.record_teaching_interaction ⟨[], 1⟩ 0 "u" "s" "t" "q" "c" "r" (-2)).rows.map
        (fun r => r.topic_relevance)) = [-2] ∧
    ¬ ((0 : ℚ) ≤ (-2 : ℚ)) := by
  refine ⟨rfl, by norm_num, rfl, by norm_num⟩

/-- C4 amended: the code stores `comprehension_score` and `topic_relevance`
exactly as supplied (no clamping); hence every stored value lies in [0,1]
exactly when the caller only ever supplies values in [0,1] — which holds for
relevance values produced by `calculate_topic_relevance` but is not enforced
by the storage operations. -/
theorem c4_score_passthrough_amended (db : MemoryManager.ProgressDB)
    (tdb : MemoryManager.TeachDB) (now : Nat) (client_id session_id : String)
    (course_id : Nat) (section_id : String) (pd : MemoryManager.ProgressData)
    (topic interaction_type content response : String) (topic_relevance : ℚ) :
    (∀ r ∈ (MemoryManager.update_learning_progress db now client_id course_id
        section_id pd).rows,
      r.comprehension_score = pd.score ∨ r ∈ db.rows) ∧
    ((MemoryManager.record_teaching_interaction tdb now client_id session_id topic
        interaction_type content response topic_relevance).rows.map
          (fun r => r.topic_relevance)
      = tdb.rows.map (fun r => r.topic_relevance) ++ [topic_relevance]) ∧
    ((∀ r ∈ db.rows, 0 ≤ r.comprehension_score ∧ r.comprehension_score ≤ 1) →
      0 ≤ pd.score → pd.score ≤ 1 →
      ∀ r ∈ (MemoryManager.update_learning_progress db now client_id course_id
          section_id pd).rows,
        0 ≤ r.comprehension_score ∧ r.comprehension_score ≤ 1) ∧
    ((∀ r ∈ tdb.rows, 0 ≤ r.topic_relevance ∧ r.topic_relevance ≤ 1) →
      0 ≤ topic_relevance → topic_relevance ≤ 1 →
      ∀ r ∈ (MemoryManager.record_teaching_interaction tdb now client_id session_id topic
          interaction_type content response topic_relevance).rows,
        0 ≤ r.topic_relevance ∧ r.topic_relevance ≤ 1) := by
  refine ⟨?_, ?_, ?_, ?_⟩
  · intro r hr
    exact MemoryManager.update_rows_passthrough db now client_id course_id section_id pd r hr
  · simp [MemoryManager.record_teaching_interaction]
  · intro hdb h0 h1 r hr
    rcases MemoryManager.update_rows_passthrough db now client_id course_id section_id pd r hr
      with h | h
    · rw [h]; exact ⟨h0, h1⟩
    · exact hdb r h
  · intro hdb h0 h1 r hr
    rcases MemoryManager.record_rows_passthrough tdb now client_id session_id topic
      interaction_type content response topic_relevance r hr with h | h
    · exact hdb r h
    · rw [h]; exact ⟨h0, h1⟩

/-- C4 amended witness: an in-range score (1/2) supplied to the upsert on an
empty table leaves the one stored row within [0,1]. -/
theorem c4_score_passthrough_amended_witness :
    0 ≤ (⟨1, "u", 1, "s", ⟨some (1/2), ""⟩, 1/2, 1, 0, 0⟩ :
        MemoryManager.LearningProgressRow).comprehension_score ∧
    (⟨1, "u", 1, "s", ⟨some (1/2), ""⟩, 1/2, 1, 0, 0⟩ :
        MemoryManager.LearningProgressRow).comprehension_score ≤ 1 :=
  (c4_score_passthrough_amended ⟨[], 1⟩ ⟨[], 1⟩ 0 "u" "s" 1 "s" ⟨some (1/2), ""⟩
    "t" "q" "c" "r" 1).2.2.1 (by simp) (by norm_num [MemoryManager.ProgressData.score])
    (by norm_num [MemoryManager.ProgressData.score])
    ⟨1, "u", 1, "s", ⟨some (1/2), ""⟩, 1/2, 1, 0, 0⟩ (List.mem_singleton.mpr rfl)

/-- C2 counterexample: for client "u", session "s" with exactly three stored
records, all of relevance 0 (mean 0 < 0.3) but older than 10 minutes, the
SQL backend's `check_topic_deviation` returns `false` — it aggregates over a
10-minute time window, not over the most recent up to 5 records as the
claim states. -/
theorem c2_check_topic_deviation_counterexample :
    (((⟨[⟨1, "u", "s", "t", "q", "c", "r", 0, 0⟩,
        ⟨2, "u", "s", "t", "q", "c", "r", 0, 0⟩,
        ⟨3, "u", "s", "t", "q", "c", "r", 0, 0⟩], 4⟩ : MemoryManager.TeachDB).rows.filter
          (fun r => r.client_id == "u" && r.session_id == "s")).map
        (fun r => r.topic_relevance)) = [0, 0, 0] ∧
    (([0, 0, 0] : List ℚ).sum / 3 < 3/10) ∧
    MemoryManager.check_topic_deviation
      ⟨[⟨1, "u", "s", "t", "q", "c", "r", 0, 0⟩,
        ⟨2, "u", "s", "t", "q", "c", "r", 0, 0⟩,
        ⟨3, "u", "s", "t", "q", "c", "r", 0, 0⟩], 4⟩ 10000 "u" "s" (3/10) = false := by
  refine ⟨rfl, by norm_num, by decide⟩

/-- C2 amended: the Agno backend behaves as the claim states — it considers
the most recent up to 5 records of the (client, session), returns `false`
with fewer than 3, and otherwise `true` iff their mean relevance is strictly
below the threshold.  The SQL backend instead aggregates over ALL of the
(client, session)'s records created within the last 10 minutes (no 5-record
cap): `false` when fewer than 3 records are in the window, else `true` iff
the windowed mean is strictly below the threshold. -/
theorem c2_check_topic_deviation_amended (tdb : MemoryManager.TeachDB) (now : Nat)
    (client_id session_id : String) (threshold : ℚ)
    (st : AgnoMemoryManager.AgnoSessionState) :
    (MemoryManager.check_topic_deviation tdb now client_id session_id threshold = true ↔
      (3 ≤ (MemoryManager.deviationWindow tdb now client_id session_id).length ∧
        ((MemoryManager.deviationWindow tdb now client_id session_id).map
            (fun r => r.topic_relevance)).sum /
          ((MemoryManager.deviationWindow tdb now client_id session_id).length : ℚ)
          < threshold)) ∧
    (AgnoMemoryManager.check_topic_deviation st session_id threshold = true ↔
      (3 ≤ (AgnoMemoryManager.get_teaching_history st (some session_id) 5).length ∧
        ((AgnoMemoryManager.get_teaching_history st (some session_id) 5).map
            (fun i => i.topic_relevance)).sum /
          ((AgnoMemoryManager.get_teaching_history st (some session_id) 5).length : ℚ)
          < threshold)) ∧
    ((AgnoMemoryManager.get_teaching_history st (some session_id) 5).length < 3 →
      AgnoMemoryManager.check_topic_deviation st session_id threshold = false) ∧
    ((MemoryManager.deviationWindow tdb now client_id session_id).length < 3 →
      MemoryManager.check_topic_deviation tdb now client_id session_id threshold = false) := by
  refine ⟨?_, ?_, ?_, ?_⟩
  · by_cases h0 : (MemoryManager.deviationWindow tdb now client_id session_id).length = 0
    · simp [MemoryManager.check_topic_deviation, h0]
    · by_cases h3 : 3 ≤ (MemoryManager.deviationWindow tdb now client_id session_id).length
      · simp [MemoryManager.check_topic_deviation, h0, h3]
      · simp [MemoryManager.check_topic_deviation, h0, h3]
  · by_cases h3 : (AgnoMemoryManager.get_teaching_history st (some session_id) 5).length < 3
    · simp [AgnoMemoryManager.check_topic_deviation, h3]
    · simp [AgnoMemoryManager.check_topic_deviation, h3]
      omega
  · intro h3
    simp [AgnoMemoryManager.check_topic_deviation, h3]
  · intro h3
    have h0 : ¬ (3 ≤ (MemoryManager.deviationWindow tdb now client_id session_id).length) := by
      omega
    by_cases hz : (MemoryManager.deviationWindow tdb now client_id session_id).length = 0
    · simp [MemoryManager.check_topic_deviation, hz]
    · simp [MemoryManager.check_topic_deviation, hz, h0]

/-- C2 amended witness: a session whose last three interactions all have
relevance 0 is flagged as deviating at threshold 0.3 by the Agno backend. -/
theorem c2_check_topic_deviation_amended_witness :
    AgnoMemoryManager.check_topic_deviation
      ⟨[], [⟨"s", "t", "q", "c", "r", 0, 1⟩, ⟨"s", "t", "q", "c", "r", 0, 2⟩,
        ⟨"s", "t", "q", "c", "r", 0, 3⟩], none, none, none, []⟩ "s" (3/10) = true := by
  have h := (c2_check_topic_deviation_amended ⟨[], 1⟩ 0 "u" "s" (3/10)
    ⟨[], [⟨"s", "t", "q", "c", "r", 0, 1⟩, ⟨"s", "t", "q", "c", "r", 0, 2⟩,
      ⟨"s", "t", "q", "c", "r", 0, 3⟩], none, none, none, []⟩).2.1
  refine h.mpr ⟨?_, ?_⟩
  · decide
  · have hh : AgnoMemoryManager.get_teaching_history
        ⟨[], [⟨"s", "t", "q", "c", "r", 0, 1⟩, ⟨"s", "t", "q", "c", "r", 0, 2⟩,
          ⟨"s", "t", "q", "c", "r", 0, 3⟩], none, none, none, []⟩ (some "s") 5
        = [⟨"s", "t", "q", "c", "r", 0, 3⟩, ⟨"s", "t", "q", "c", "r", 0, 2⟩,
           ⟨"s", "t", "q", "c", "r", 0, 1⟩] := rfl
    rw [hh]
    norm_num

namespace MemoryManager

/-- A row produced by folding `pickLatest` comes from the list (or was the
starting accumulator). -/
theorem foldl_pickLatest_mem (l : List TopicRow) :
    ∀ (acc : Option TopicRow) (r : TopicRow),
      l.foldl pickLatest acc = some r → r ∈ l ∨ acc = some r := by
  induction l with
  | nil =>
    intro acc r h
    right
    exact h
  | cons x xs ih =>
    intro acc r h
    rcases ih (pickLatest acc x) r h with hm | he
    · left
      exact List.mem_cons_of_mem _ hm
    · cases acc with
      | none =>
        left
        have hx : x = r := by simpa [pickLatest] using he
        rw [← hx]
        exact List.mem_cons_self x xs
      | some a =>
        by_cases hc : a.created_at ≤ x.created_at
        · left
          have hx : x = r := by simpa [pickLatest, hc] using he
          rw [← hx]
          exact List.mem_cons_self x xs
        · right
          have ha : a = r := by simpa [pickLatest, hc] using he
          rw [ha]

/-- The row selected by the `ORDER BY created_at DESC LIMIT 1` lookup is a
stored row of the table. -/
theorem lastTopicRecord_mem (rows : List TopicRow) (client_id session_id : String)
    (last : TopicRow) (h : lastTopicRecord rows client_id session_id = some last) :
    last ∈ rows := by
  unfold lastTopicRecord at h
  rcases foldl_pickLatest_mem _ none last h with hm | he
  · exact List.mem_of_mem_filter hm
  · cases he

end MemoryManager

/-- C5 counterexample: with one open record for topic "math" (duration 0,
start time 100) and a call for the SAME topic "math" at time 200, the SQL
backend writes `duration = 100` into the previous record (closing it) and
appends a fresh record —

the claim says an unchanged topic only (re)sets the topic/start time without
closing the previous record. -/
theorem c5_update_topic_tracking_counterexample :
    (((MemoryManager.update_topic_tracking
        ⟨[⟨1, "u", "s", "math", 100, 0, 0, 0, 100, 100⟩], 2⟩ 200 "u" "s" "math").rows.map
          (fun r => r.topic_duration)) = [100, 0]) ∧
    ((100 : Int) ≠ 0) := by
  refine ⟨by decide, by decide⟩

/-- C5 amended: the SQL backend never compares topics: whenever ANY record
exists for the (client, session), the selected most recent one is closed
with `duration = now - topic_start_time` — even when `new_topic` equals its
topic — and a new open record for `new_topic` is always appended (that much
also when no record exists).  The Agno backend behaves as the claim states:
it closes (records a history segment for) the previous topic exactly when a
non-empty previous topic differs from the new one, and always (re)sets the
current topic and start time. -/
theorem c5_update_topic_tracking_amended (db : MemoryManager.TopicDB) (now : Nat)
    (client_id session_id new_topic : String) (st : AgnoMemoryManager.AgnoSessionState) :
    ((MemoryManager.update_topic_tracking db now client_id session_id new_topic).rows.getLast?
      = some ⟨db.nextId, client_id, session_id, new_topic, now, 0, 0, 0, now, now⟩) ∧
    (MemoryManager.lastTopicRecord db.rows client_id session_id = none →
      (MemoryManager.update_topic_tracking db now client_id session_id new_topic).rows
        = db.rows ++ [⟨db.nextId, client_id, session_id, new_topic, now, 0, 0, 0, now, now⟩]) ∧
    (∀ last, MemoryManager.lastTopicRecord db.rows client_id session_id = some last →
      ∃ r ∈ (MemoryManager.update_topic_tracking db now client_id session_id new_topic).rows,
        r.id = last.id ∧ r.current_topic = last.current_topic ∧
          r.topic_duration = (now : Int) - (last.topic_start_time : Int)) ∧
    ((AgnoMemoryManager.update_topic_tracking st now session_id new_topic).current_topic
        = some new_topic ∧
      (AgnoMemoryManager.update_topic_tracking st now session_id new_topic).topic_start_time
        = some now ∧
      (AgnoMemoryManager.update_topic_tracking st now session_id new_topic).session_id
        = some session_id) ∧
    (∀ p s, st.current_topic = some p → p ≠ "" → p ≠ new_topic →
      st.topic_start_time = some s →
      (AgnoMemoryManager.update_topic_tracking st now session_id new_topic).topic_history
        = st.topic_history ++ [⟨p, s, (now : Int) - (s : Int), now⟩]) ∧
    ((st.current_topic = none ∨ st.current_topic = some new_topic) →
      (AgnoMemoryManager.update_topic_tracking st now session_id new_topic).topic_history
        = st.topic_history) := by
  refine ⟨?_, ?_, ?_, ⟨rfl, rfl, rfl⟩, ?_, ?_⟩
  · simp only [MemoryManager.update_topic_tracking]
    exact List.getLast?_concat _
  · intro h
    simp only [MemoryManager.update_topic_tracking, h]
  · intro last hlast
    have hmem : last ∈ db.rows :=
      MemoryManager.lastTopicRecord_mem db.rows client_id session_id last hlast
    refine ⟨⟨last.id, last.client_id, last.session_id, last.current_topic,
      last.topic_start_time, (now : Int) - (last.topic_start_time : Int),
      last.deviation_count, last.total_interactions, last.created_at, now⟩,
      ?_, rfl, rfl, rfl⟩
    simp only [MemoryManager.update_topic_tracking, hlast]
    refine List.mem_append_left _ ?_
    have hmm := List.mem_map_of_mem
      (fun r => if r.id = last.id then
        { r with topic_duration := (now : Int) - (last.topic_start_time : Int),
                 updated_at := now }
        else r) hmem
    simpa using hmm
  · intro p s hp hpne hpdiff hs
    simp [AgnoMemoryManager.update_topic_tracking, hp, hs, hpne, hpdiff]
  · intro h
    rcases h with h | h
    · simp [AgnoMemoryManager.update_topic_tracking, h]
    · simp [AgnoMemoryManager.update_topic_tracking, h]

/-- C5 amended witness: with one open record (topic "math", start 100), a
call for the different topic "physics" at time 200 closes it with duration
100 while keeping its topic. -/
theorem c5_update_topic_tracking_amended_witness :
    ∃ r ∈ (MemoryManager.update_topic_tracking
        ⟨[⟨1, "u", "s", "math", 100, 0, 0, 0, 100, 100⟩], 2⟩ 200 "u" "s" "physics").rows,
      r.id = (⟨1, "u", "s", "math", 100, 0, 0, 0, 100, 100⟩ : MemoryManager.TopicRow).id ∧
      r.current_topic
        = (⟨1, "u", "s", "math", 100, 0, 0, 0, 100, 100⟩ :
            MemoryManager.TopicRow).current_topic ∧
      r.topic_duration = ((200 : Nat) : Int) -
        (((⟨1, "u", "s", "math", 100, 0, 0, 0, 100, 100⟩ :
            MemoryManager.TopicRow).topic_start_time : Nat) : Int) :=
  (c5_update_topic_tracking_amended ⟨[⟨1, "u", "s", "math", 100, 0, 0, 0, 100, 100⟩], 2⟩
    200 "u" "s" "physics" ⟨[], [], none, none, none, []⟩).2.2.1
    ⟨1, "u", "s", "math", 100, 0, 0, 0, 100, 100⟩ (by decide)

/-- Over any list, `find?` returns the head of `filter`. -/
theorem find?_eq_head?_filter {α : Type} (p : α → Bool) (l : List α) :
    l.find? p = (l.filter p).head? := by
  induction l with
  | nil => rfl
  | cons x xs ih =>
    by_cases h : p x
    · rw [List.find?_cons_of_pos _ h, List.filter_cons_of_pos h]
      rfl
    · rw [List.find?_cons_of_neg _ h, List.filter_cons_of_neg h, ih]

/-- `filter` commutes with a map that does not change the filtered
predicate's verdict. -/
theorem filter_map_pres {α : Type} (f : α → α) (p : α → Bool)
    (hp : ∀ a, p (f a) = p a) (l : List α) :
    (l.map f).filter p = (l.filter p).map f := by
  induction l with
  | nil => rfl
  | cons x xs ih =>
    by_cases h : p x
    · simp [List.filter_cons, hp, h, ih]
    · simp [List.filter_cons, hp, h, ih]

namespace MemoryManager

/-- The fresh row inserted by `update_learning_progress` when no row for the
key exists. -/
def freshProgressRow (db : ProgressDB) (now : Nat) (client_id : String) (course_id : Nat)
    (section_id : String) (pd : ProgressData) : LearningProgressRow :=
  { id := db.nextId, client_id := client_id, course_id := course_id, section_id := section_id,
    progress_data := pd, comprehension_score := pd.score, interaction_count := 1,
    last_activity := now, created_at := now }

/-- Insert case of the upsert: with no row for the key, the call appends one
fresh row with `interaction_count = 1` and bumps the id counter. -/
theorem upsert_insert (db : ProgressDB) (now : Nat) (client_id : String) (course_id : Nat)
    (section_id : String) (pd : ProgressData)
    (h : db.rows.filter (progressKeyMatch client_id course_id section_id) = []) :
    update_learning_progress db now client_id course_id section_id pd
      = ⟨db.rows ++ [freshProgressRow db now client_id course_id section_id pd],
         db.nextId + 1⟩ := by
  have hfind : db.rows.find? (progressKeyMatch client_id course_id section_id) = none := by
    rw [find?_eq_head?_filter, h]
    rfl
  simp only [update_learning_progress, hfind]
  rfl

/-- The key predicate only reads the three key fields, which the update
branch leaves unchanged. -/
theorem keyMatch_update_invariant (client_id : String) (course_id : Nat) (section_id : String)
    (now : Nat) (pd : ProgressData) (exid : Nat) (r : LearningProgressRow) :
    progressKeyMatch client_id course_id section_id
        (if r.id = exid then
          { r with progress_data := pd, comprehension_score := pd.score,
                   interaction_count := r.interaction_count + 1, last_activity := now }
        else r)
      = progressKeyMatch client_id course_id section_id r := by
  by_cases h : r.id = exid
  · simp [h, progressKeyMatch]
  · simp [h]

/-- Update case of the upsert: when the rows for the key are exactly `[ex]`,
the call leaves exactly one row for the key — `ex` with `progress_data` and
`comprehension_score` overwritten, `interaction_count` incremented and
`last_activity` refreshed. -/
theorem upsert_update (db : ProgressDB) (now : Nat) (client_id : String) (course_id : Nat)
    (section_id : String) (pd : ProgressData) (ex : LearningProgressRow)
    (h : db.rows.filter (progressKeyMatch client_id course_id section_id) = [ex]) :
    (update_learning_progress db now client_id course_id section_id pd).rows.filter
        (progressKeyMatch client_id course_id section_id)
      = [{ ex with progress_data := pd, comprehension_score := pd.score,
                   interaction_count := ex.interaction_count + 1,
                   last_activity := now }] := by
  have hfind : db.rows.find? (progressKeyMatch client_id course_id section_id) = some ex := by
    rw [find?_eq_head?_filter, h]
    rfl
  simp only [update_learning_progress, hfind]
  rw [filter_map_pres _ _
    (keyMatch_update_invariant client_id course_id section_id now pd ex.id), h]
  simp

/-- The fresh row matches its own key. -/
theorem freshProgressRow_keyMatch (db : ProgressDB) (now : Nat) (client_id : String)
    (course_id : Nat) (section_id : String) (pd : ProgressData) :
    progressKeyMatch client_id course_id section_id
      (freshProgressRow db now client_id course_id section_id pd) = true := by
  simp [progressKeyMatch, freshProgressRow]

end MemoryManager

/-- C3: the upsert semantics of `update_learning_progress`.  If no row for
the (client, course, section) key exists, the call inserts exactly one row
for the key, with `interaction_count = 1`, the supplied `progress_data`,
its `comprehension_score` (default 0) and a fresh `last_activity`.  If the
rows for the key are exactly `[ex]` — the invariant every reachable state
satisfies — the call leaves exactly `ex` updated: count incremented, data
and score overwritten, `last_activity` refreshed.  Hence two successive
calls from a key-free state leave exactly one row for the key, with
`interaction_count = 2` and the second call's score and data. -/
theorem c3_update_learning_progress_upsert (db : MemoryManager.ProgressDB)
    (now now2 : Nat) (client_id : String) (course_id : Nat) (section_id : String)
    (pd pd2 : MemoryManager.ProgressData) :
    (db.rows.filter (MemoryManager.progressKeyMatch client_id course_id section_id) = [] →
      (MemoryManager.update_learning_progress db now client_id course_id
          section_id pd).rows.filter
          (MemoryManager.progressKeyMatch client_id course_id section_id)
        = [MemoryManager.freshProgressRow db now client_id course_id section_id pd]) ∧
    (∀ ex, db.rows.filter (MemoryManager.progressKeyMatch client_id course_id section_id)
        = [ex] →
      (MemoryManager.update_learning_progress db now client_id course_id
          section_id pd).rows.filter
          (MemoryManager.progressKeyMatch client_id course_id section_id)
        = [{ ex with progress_data := pd, comprehension_score := pd.score,
                     interaction_count := ex.interaction_count + 1,
                     last_activity := now }]) ∧
    (db.rows.filter (MemoryManager.progressKeyMatch client_id course_id section_id) = [] →
      ((MemoryManager.update_learning_progress
          (MemoryManager.update_learning_progress db now client_id course_id section_id pd)
          now2 client_id course_id section_id pd2).rows.filter
          (MemoryManager.progressKeyMatch client_id course_id section_id)).length = 1 ∧
      ∀ r ∈ (MemoryManager.update_learning_progress
          (MemoryManager.update_learning_progress db now client_id course_id section_id pd)
          now2 client_id course_id section_id pd2).rows.filter
          (MemoryManager.progressKeyMatch client_id course_id section_id),
        r.interaction_count = 2 ∧ r.comprehension_score = pd2.score ∧
          r.progress_data = pd2) := by
  have hinsert : db.rows.filter (MemoryManager.progressKeyMatch client_id course_id section_id)
      = [] →
      (MemoryManager.update_learning_progress db now client_id course_id
          section_id pd).rows.filter
        (MemoryManager.progressKeyMatch client_id course_id section_id)
      = [MemoryManager.freshProgressRow db now client_id course_id section_id pd] := by
    intro h
    rw [MemoryManager.upsert_insert db now client_id course_id section_id pd h]
    rw [List.filter_append, h]
    simp [MemoryManager.freshProgressRow_keyMatch]
  refine ⟨hinsert, ?_, ?_⟩
  · intro ex h
    exact MemoryManager.upsert_update db now client_id course_id section_id pd ex h
  · intro h
    have h1 := hinsert h
    have h2 := MemoryManager.upsert_update
      (MemoryManager.update_learning_progress db now client_id course_id section_id pd)
      now2 client_id course_id section_id pd2
      (MemoryManager.freshProgressRow db now client_id course_id section_id pd) h1
    rw [h2]
    refine ⟨rfl, ?_⟩
    intro r hr
    have : r = { MemoryManager.freshProgressRow db now client_id course_id section_id pd with
        progress_data := pd2, comprehension_score := pd2.score,
        interaction_count := (MemoryManager.freshProgressRow db now client_id course_id
          section_id pd).interaction_count + 1, last_activity := now2 } :=
      List.mem_singleton.mp hr
    rw [this]
    exact ⟨rfl, rfl, rfl⟩

/-- C3 witness: two calls on an initially empty table, first with score 1/2,
then with score 1/4 — one row remains, with count 2 and the second score. -/
theorem c3_update_learning_progress_upsert_witness :
    ((MemoryManager.update_learning_progress
        (MemoryManager.update_learning_progress ⟨[], 1⟩ 10 "u" 1 "s" ⟨some (1/2), "a"⟩)
        20 "u" 1 "s" ⟨some (1/4), "b"⟩).rows.filter
        (MemoryManager.progressKeyMatch "u" 1 "s")).length = 1 :=
  ((c3_update_learning_progress_upsert ⟨[], 1⟩ 10 20 "u" 1 "s"
    ⟨some (1/2), "a"⟩ ⟨some (1/4), "b"⟩).2.2 rfl).1
